import Mathlib

/-!
Verification of the ADA orchestration pipeline (LearnQwest repository).

This file shallowly embeds the algorithmic core of the repository's Python
sources and proves or refutes the specification's claims about it:

 - ada_coordinator.py : ExecutionStrategy.create_execution_plan (wave
   scheduler), the wave loop of ADACoordinator.execute (timeout handling),
   ADACoordinator._execute_subtask (feedback / routing effects), and the
   top-level try/except of ADACoordinator.execute (error report).
 - ada_task_decomposer.py : TaskDecomposer._identify_pattern,
   TaskDecomposer._decompose_duplicate_detection,
   TaskDecomposer._calculate_parallel_groups.
 - ada_orchestrator.py : RoutingSpine.detect_content_type,
   RoutingSpine.detect_required_capability, RoutingSpine.route,
   RoutingSpine.update_success_rate.
 - ada_output_synthesizer.py : OutputSynthesizer._synthesize_codebase_analysis
   together with its section formatters and _build_metadata.

Modelling conventions:
 - Python str is Lean String; Python's substring test (sub in s) is strContains.
 - Python dict values (the untyped payloads) are the inductive PyVal; dicts are
   association lists in insertion order.
 - Python floats are modelled as rationals; Python ints as Int/Nat.
 - The ambient wall clock (datetime.now) is an explicit Nat parameter.
 - Python set objects are modelled by lists used only through membership.
-/

namespace ADA

/-! ## String helpers (Python string primitives) -/

/-- Python str.lower (inputs here are ASCII, where Char.toLower agrees). -/
def pyLower (s : String) : String := ⟨s.data.map Char.toLower⟩

/-- Whether sub occurs as a contiguous sublist of l (Python substring test). -/
def listContainsSub {α : Type} [BEq α] (sub : List α) : List α → Bool
  | [] => sub.isEmpty
  | x :: xs => sub.isPrefixOf (x :: xs) || listContainsSub sub xs

/-- Python membership test sub in hay on strings. -/
def strContains (hay sub : String) : Bool := listContainsSub sub.data hay.data

/-- Python any(word in hay for word in subs). -/
def containsAny (hay : String) (subs : List String) : Bool :=
  subs.any (fun sub => strContains hay sub)

/-- Python str.strip: remove leading and trailing whitespace. -/
def pyStrip (s : String) : String :=
  ⟨((s.data.dropWhile Char.isWhitespace).reverse.dropWhile Char.isWhitespace).reverse⟩

/-! ## Python values (untyped dict payloads) -/

/-- A Python value as it appears in the untyped result payloads. -/
inductive PyVal : Type where
  | none : PyVal
  | bool (b : Bool) : PyVal
  | int (n : Int) : PyVal
  | rat (q : ℚ) : PyVal
  | str (s : String) : PyVal
  | list (xs : List PyVal) : PyVal
  | dict (kvs : List (String × PyVal)) : PyVal

/-- Dict lookup: the value stored under key k, if any. -/
def pyLookup (kvs : List (String × PyVal)) (k : String) : Option PyVal :=
  (kvs.find? (fun kv => kv.1 == k)).map (fun kv => kv.2)

/-- Python dict.get(k, dflt). -/
def pyGet (kvs : List (String × PyVal)) (k : String) (dflt : PyVal) : PyVal :=
  match pyLookup kvs k with
  | some v => v
  | Option.none => dflt

/-- Python dict assignment d[k] = v (overwrite in place, else append). -/
def pyDictSet (kvs : List (String × PyVal)) (k : String) (v : PyVal) :
    List (String × PyVal) :=
  if kvs.any (fun kv => kv.1 == k) then
    kvs.map (fun kv => if kv.1 == k then (kv.1, v) else kv)
  else kvs ++ [(k, v)]

/-- Python truthiness of a value. -/
def pyTruthy : PyVal → Bool
  | PyVal.none => false
  | PyVal.bool b => b
  | PyVal.int n => n != 0
  | PyVal.rat q => q != 0
  | PyVal.str s => !s.isEmpty
  | PyVal.list xs => !xs.isEmpty
  | PyVal.dict kvs => !kvs.isEmpty

/-- Python str(v) for the scalar values interpolated into f-strings here.
Containers are rendered opaquely; no embedded claim depends on that case. -/
def pyStr : PyVal → String
  | PyVal.none => "None"
  | PyVal.bool b => if b then "True" else "False"
  | PyVal.int n => toString n
  | PyVal.rat q => toString q
  | PyVal.str s => s
  | PyVal.list _ => "[...]"
  | PyVal.dict _ => "{...}"

/-- Get an int payload field with a default, as the synthesizer's
result.get(key, 0) does (a non-int value there would crash the Python
formatters; such payloads are outside the embedded domain). -/
def pyvGetInt (v : PyVal) (k : String) (dflt : Int) : Int :=
  match v with
  | PyVal.dict kvs =>
    match pyLookup kvs k with
    | some (PyVal.int n) => n
    | _ => dflt
  | _ => dflt

/-- Get a list payload field with default []. -/
def pyvGetList (v : PyVal) (k : String) : List PyVal :=
  match v with
  | PyVal.dict kvs =>
    match pyLookup kvs k with
    | some (PyVal.list xs) => xs
    | _ => []
  | _ => []

/-- Python key in dict for a payload value. -/
def pyvHasKey (v : PyVal) (k : String) : Bool :=
  match v with
  | PyVal.dict kvs => kvs.any (fun kv => kv.1 == k)
  | _ => false

/-- Python value.get(k, dflt) on a payload value. -/
def pyvGet (v : PyVal) (k : String) (dflt : PyVal) : PyVal :=
  match v with
  | PyVal.dict kvs => pyGet kvs k dflt
  | _ => dflt

/-! ## Data model: SubTask (ada_task_decomposer.py)

The SubTask dataclass.  The input_data field (an opaque parameter dict passed
through to the executor and never consulted by any of the embedded
operations) is omitted from the embedding. -/

structure SubTask where
  task_id : String
  ion_name : String
  description : String
  priority : Int
  depends_on : List String
  can_parallelize : Bool
  estimated_time_seconds : Int
deriving DecidableEq, Repr

/-! ## Wave scheduler: ExecutionStrategy.create_execution_plan
(ada_coordinator.py lines 79-121)

The Python loop is:
  while remaining:
    ready = [t for t in remaining
             if not t.depends_on or all(dep in completed for dep in t.depends_on)]
    if not ready: ready = remaining.copy()        (degraded mode, WARN print)
    waves.append(ready)
    for t in ready: completed.add(t.ion_name); remaining.remove(t)

Note that completion is recorded by ion_name while depends_on holds task ids.
Since readiness is a function of a task's value, removing every element of
ready (a filter of remaining) with list.remove leaves exactly the elements
failing the filter; the loop is embedded with explicit fuel (each round
removes at least one task, so fuel = number of tasks suffices). -/

/-- Readiness test of the loop body: no dependencies, or every dependency is
in the completed set (the two Python branches coincide, since all() of an
empty list is True). -/
def taskReady (completed : List String) (t : SubTask) : Bool :=
  t.depends_on.all (fun dep => completed.contains dep)

def createPlanAux : Nat → List String → List SubTask → List (List SubTask)
  | 0, _, _ => []
  | fuel + 1, completed, remaining =>
    if remaining.isEmpty then []
    else
      let ready := remaining.filter (taskReady completed)
      if ready.isEmpty then [remaining]
      else
        ready :: createPlanAux fuel (completed ++ ready.map (fun t => t.ion_name))
          (remaining.filter (fun t => !taskReady completed t))

def create_execution_plan (subtasks : List SubTask) : List (List SubTask) :=
  createPlanAux subtasks.length [] subtasks

/-- Index of the wave containing the subtask with the given task id. -/
def waveIndexOf (plan : List (List SubTask)) (tid : String) : Option Nat :=
  plan.findIdx? (fun w => w.any (fun t => t.task_id == tid))

/-! ## Decomposer: TaskDecomposer._calculate_parallel_groups
(ada_task_decomposer.py lines 791-819)

remaining is a Python set of task ids (modelled as a deduplicated list used
through membership; set iteration order is modelled as list order — the
properties proved below do not depend on it).  When a round finds no ready
task the loop breaks, returning the groups built so far and dropping the
rest. -/

def groupReady (subtasks : List SubTask) (completed : List String) (tid : String) : Bool :=
  match subtasks.find? (fun st => st.task_id == tid) with
  | some t => t.depends_on.all (fun dep => completed.contains dep)
  | Option.none => false

def calcGroupsAux (subtasks : List SubTask) :
    Nat → List String → List String → List (List String)
  | 0, _, _ => []
  | fuel + 1, completed, remaining =>
    if remaining.isEmpty then []
    else
      let currentGroup := remaining.filter (groupReady subtasks completed)
      if currentGroup.isEmpty then []
      else
        currentGroup :: calcGroupsAux subtasks fuel (completed ++ currentGroup)
          (remaining.filter (fun tid => !currentGroup.contains tid))

def calculate_parallel_groups (subtasks : List SubTask) : List (List String) :=
  calcGroupsAux subtasks (subtasks.map (fun st => st.task_id)).dedup.length []
    (subtasks.map (fun st => st.task_id)).dedup

/-! ## Classifier: TaskDecomposer._identify_pattern
(ada_task_decomposer.py lines 135-304), an ordered first-match chain. -/

inductive TaskPattern : Type where
  | CODEBASE_ANALYSIS
  | CONTENT_RESEARCH
  | PROJECT_STATUS
  | CODE_CLEANUP
  | LEARNING_MATERIALS
  | QUALITY_ASSESSMENT
  | REFACTORING
  | DOCUMENTATION
  | DUPLICATE_DETECTION
  | DEAD_CODE_ANALYSIS
  | CODE_ORGANIZATION
  | CONTENT_EXTRACTION
  | QUIZ_GENERATION
  | CUSTOM
deriving DecidableEq, Repr

/-- The .value string of each TaskPattern enum member. -/
def patternValue : TaskPattern → String
  | TaskPattern.CODEBASE_ANALYSIS => "analyze_codebase"
  | TaskPattern.CONTENT_RESEARCH => "research_topic"
  | TaskPattern.PROJECT_STATUS => "project_status"
  | TaskPattern.CODE_CLEANUP => "code_cleanup"
  | TaskPattern.LEARNING_MATERIALS => "create_learning"
  | TaskPattern.QUALITY_ASSESSMENT => "assess_quality"
  | TaskPattern.REFACTORING => "refactor_code"
  | TaskPattern.DOCUMENTATION => "generate_docs"
  | TaskPattern.DUPLICATE_DETECTION => "find_duplicates"
  | TaskPattern.DEAD_CODE_ANALYSIS => "find_dead_code"
  | TaskPattern.CODE_ORGANIZATION => "organize_code"
  | TaskPattern.CONTENT_EXTRACTION => "extract_content"
  | TaskPattern.QUIZ_GENERATION => "generate_quiz"
  | TaskPattern.CUSTOM => "custom"

def identifyPattern (task : String) : TaskPattern :=
  let t := pyLower task
  if containsAny t ["duplicate", "duplicates", "repeated", "redundant", "copy", "copies"]
      || containsAny t ["find duplicate", "duplicate code", "duplicate patterns", "similar code"] then
    TaskPattern.DUPLICATE_DETECTION
  else if containsAny t ["dead code", "unused code", "unreachable", "identify unused", "find unused"]
      || ((strContains t "unused" || strContains t "dead") && strContains t "code") then
    TaskPattern.DEAD_CODE_ANALYSIS
  else if containsAny t ["code organization", "organize code", "group code", "structure code",
        "analyze organization", "analyze code organization"]
      || (strContains t "code" && containsAny t ["group", "structure", "arrange"]) then
    TaskPattern.CODE_ORGANIZATION
  else if strContains t "quiz" || strContains t "test questions" then
    TaskPattern.QUIZ_GENERATION
  else if containsAny t ["questions", "teach", "explain", "lesson", "study", "learn"]
      && !containsAny t ["research", "search"] then
    TaskPattern.LEARNING_MATERIALS
  else if containsAny t ["analyze", "audit", "assess", "review"]
      && containsAny t ["codebase", "code", "repository", "project", "files"] then
    TaskPattern.CODEBASE_ANALYSIS
  else if containsAny t ["status", "where am i", "what was i", "context", "working on", "yesterday"] then
    TaskPattern.PROJECT_STATUS
  else if containsAny t ["clean", "cleanup", "tidy"] then
    TaskPattern.CODE_CLEANUP
  else if containsAny t ["refactor", "restructure", "improve code", "optimize code",
        "refactoring plan", "generate refactoring"] then
    TaskPattern.REFACTORING
  else if containsAny t ["quality", "score", "rate", "evaluate"]
      && containsAny t ["content", "video", "article", "resource"] then
    TaskPattern.QUALITY_ASSESSMENT
  else if containsAny t ["extract", "pull content", "get content", "transcript"] then
    TaskPattern.CONTENT_EXTRACTION
  else if containsAny t ["document", "docs", "readme", "guide"] then
    TaskPattern.DOCUMENTATION
  else if containsAny t ["research", "search", "learn about", "discover", "look up"] then
    TaskPattern.CONTENT_RESEARCH
  else if strContains t "find" then
    TaskPattern.CONTENT_RESEARCH
  else TaskPattern.CUSTOM

/-! ## Decomposer builder for the duplicate-detection pattern
(ada_task_decomposer.py lines 306-309 and 643-659).  The builder reads a
path only into the omitted input_data payload, so the task text does not
influence the embedded fields. -/

/-- Python f-string 03d zero padding. -/
def pad3 (n : Nat) : String :=
  if n < 10 then "00" ++ toString n
  else if n < 100 then "0" ++ toString n
  else toString n

/-- TaskDecomposer._generate_task_id: bump the counter, id is name_counter. -/
def generateTaskId (ion_name : String) (counter : Nat) : String × Nat :=
  (ion_name ++ "_" ++ pad3 (counter + 1), counter + 1)

/-- TaskDecomposer._decompose_duplicate_detection. -/
def decomposeDuplicateDetection (_task : String) (counter : Nat) :
    List SubTask × Nat :=
  let idc := generateTaskId "duplicate-detector" counter
  ([{ task_id := idc.1
      ion_name := "duplicate-detector"
      description := "Find duplicate code patterns"
      priority := 1
      depends_on := []
      can_parallelize := true
      estimated_time_seconds := 5 }], idc.2)

/-! ## Executor output (ada_output_synthesizer.py IonOutput dataclass)

result is the untyped payload dict; timestamp is the wall clock at
construction (datetime.now), modelled as a Nat tick. -/

structure IonOutput where
  ion_name : String
  description : String
  success : Bool
  result : PyVal
  execution_time_ms : Int
  timestamp : Nat
  error : Option String := Option.none

/-! ## Wave loop of ADACoordinator.execute (ada_coordinator.py lines 230-275)

Each wave is awaited with asyncio.wait_for under a budget; on
asyncio.TimeoutError the awaited coroutine's outputs are discarded and a
synthetic failed output is appended for every subtask of the wave; otherwise
the wave's outputs are appended and the successful ones are stored (keyed by
the ion name with every occurrence of -ion removed) for later waves.  The
invocation of the wave body is abstracted as the oracle runWave, and whether
wave n's budget elapsed as the oracle timedOut. -/

/-- The synthetic output built in the asyncio.TimeoutError branch. -/
def timeoutOutput (now : Nat) (st : SubTask) : IonOutput :=
  { ion_name := st.ion_name
    description := st.description
    success := false
    result := PyVal.dict [("error", PyVal.str "Timeout")]
    execution_time_ms := 0
    timestamp := now
    error := some "Execution timeout" }

def stripIonAux : Nat → List Char → List Char
  | 0, l => l
  | _ + 1, [] => []
  | fuel + 1, c :: cs =>
    if ['-', 'i', 'o', 'n'].isPrefixOf (c :: cs) then stripIonAux fuel (cs.drop 3)
    else c :: stripIonAux fuel cs

/-- Python name.replace of every occurrence of -ion by the empty string. -/
def stripIon (s : String) : String := ⟨stripIonAux s.data.length s.data⟩

/-- Store the successful outputs of a completed wave for later waves. -/
def storeWaveResults (prev : List (String × PyVal)) (outs : List IonOutput) :
    List (String × PyVal) :=
  outs.foldl
    (fun acc o => if o.success then pyDictSet acc (stripIon o.ion_name) o.result else acc)
    prev

def executeWavesAux (runWave : Nat → List SubTask → List (String × PyVal) → List IonOutput)
    (timedOut : Nat → Bool) (now : Nat) :
    Nat → List (String × PyVal) → List (List SubTask) → List IonOutput
  | _, _, [] => []
  | n, prev, wave :: rest =>
    if timedOut n then
      wave.map (timeoutOutput now) ++ executeWavesAux runWave timedOut now (n + 1) prev rest
    else
      let outs := runWave n wave prev
      outs ++ executeWavesAux runWave timedOut now (n + 1) (storeWaveResults prev outs) rest

/-- The wave loop: wave numbers start at 1, previous results start empty. -/
def executeWaves (runWave : Nat → List SubTask → List (String × PyVal) → List IonOutput)
    (timedOut : Nat → Bool) (now : Nat) (waves : List (List SubTask)) : List IonOutput :=
  executeWavesAux runWave timedOut now 1 [] waves

/-! ## Routing data model (ada_orchestrator.py) -/

inductive ContentType : Type where
  | YOUTUBE_VIDEO
  | CODE_FILE
  | DOCUMENT
  | QUESTION
  | SEARCH_QUERY
  | IMAGE
  | UNKNOWN
deriving DecidableEq, Repr

inductive AgentCapability : Type where
  | SEARCH
  | ANALYZE
  | GENERATE
  | ASSESS
  | REFACTOR
  | EXPLAIN
deriving DecidableEq, Repr

/-- AgentRoute dataclass; priority is a Python int and success_rate a Python
float, both modelled as rationals. -/
structure AgentRoute where
  agent_name : String
  handles_content : List ContentType
  capabilities : List AgentCapability
  priority : ℚ
  success_rate : ℚ
deriving DecidableEq, Repr

/-! ## RoutingSpine.detect_content_type (lines 206-237) -/

def detect_content_type (content : String) : ContentType :=
  let lower := pyLower content
  if strContains lower "youtube.com" || strContains lower "youtu.be" then
    ContentType.YOUTUBE_VIDEO
  else if containsAny lower [".py", ".ts", ".js", ".tsx", ".jsx", ".java", ".go", ".rs"] then
    ContentType.CODE_FILE
  else if containsAny content ["def ", "function ", "class ", "import ", "const ", "let ", "var "] then
    ContentType.CODE_FILE
  else if containsAny lower ["find", "search", "look for", "where is", "how to find"] then
    ContentType.SEARCH_QUERY
  else if (pyStrip content).data.getLast? == some '?'
      || ["what", "how", "why", "when", "where", "who"].any (fun p => p.data.isPrefixOf lower.data) then
    ContentType.QUESTION
  else if content.length > 500 then ContentType.DOCUMENT
  else ContentType.UNKNOWN

/-! ## RoutingSpine.detect_required_capability (lines 239-254) -/

def detect_required_capability (content : String) : AgentCapability :=
  let lower := pyLower content
  if containsAny lower ["search", "find", "look for"] then AgentCapability.SEARCH
  else if containsAny lower ["analyze", "assess", "evaluate", "review"] then AgentCapability.ANALYZE
  else if containsAny lower ["generate", "create", "write", "build", "make"] then AgentCapability.GENERATE
  else if containsAny lower ["refactor", "improve", "optimize", "fix"] then AgentCapability.REFACTOR
  else if containsAny lower ["explain", "what is", "how does", "why"] then AgentCapability.EXPLAIN
  else AgentCapability.ANALYZE

/-! ## RoutingSpine.route (lines 256-286)

The loop body scores a route priority * success_rate when it matches the
content type or the capability, doubles the score when it matches both, and
skips the route when it matches neither.  matches.sort(reverse=True) on the
score is CPython's stable sort; a stable sort is extensionally unique, so it
is embedded as a stable descending insertion sort. -/

/-- Score assigned to one route by the loop body, or none when skipped. -/
def routeScore (ct : ContentType) (cap : AgentCapability) (r : AgentRoute) : Option ℚ :=
  let type_match := r.handles_content.contains ct
  let capability_match := r.capabilities.contains cap
  if type_match || capability_match then
    some (if type_match && capability_match then r.priority * r.success_rate * 2
          else r.priority * r.success_rate)
  else Option.none

/-- The matches list, in registration order. -/
def routeMatches (routes : List AgentRoute) (ct : ContentType) (cap : AgentCapability) :
    List (String × ℚ) :=
  routes.filterMap (fun r => (routeScore ct cap r).map (fun sc => (r.agent_name, sc)))

/-- Stable descending insertion: the inserted element precedes the first
strictly-smaller or equal-scored later element it can (equal scores keep the
earlier element first, as CPython's stable sort does). -/
def insertDescStable (x : String × ℚ) : List (String × ℚ) → List (String × ℚ)
  | [] => [x]
  | y :: ys => if x.2 ≥ y.2 then x :: y :: ys else y :: insertDescStable x ys

def sortDescStable : List (String × ℚ) → List (String × ℚ)
  | [] => []
  | x :: xs => insertDescStable x (sortDescStable xs)

def route (routes : List AgentRoute) (content : String) : List String :=
  let ct := detect_content_type content
  let cap := detect_required_capability content
  let agents := (sortDescStable (routeMatches routes ct cap)).map (fun m => m.1)
  if agents.isEmpty then ["general-learning-agent"] else agents

/-! ## Specification-side ranking (from the claim's words, for refinement)

The claim states: matching routes are scored priority_weight times
success_rate, doubled on a dual match, excluded on no match; results sorted
by descending score with ties broken by registration order; a single
fallback name when nothing matches.  This is rendered literally: routes are
tagged with their registration index and sorted by the lexicographic key
(score descending, registration index ascending). -/

def claimScore (ct : ContentType) (cap : AgentCapability) (r : AgentRoute) : Option ℚ :=
  if r.handles_content.contains ct ∧ r.capabilities.contains cap then
    some (2 * (r.priority * r.success_rate))
  else if r.handles_content.contains ct ∨ r.capabilities.contains cap then
    some (r.priority * r.success_rate)
  else Option.none

def tagFrom {α : Type} : Nat → List α → List (Nat × α)
  | _, [] => []
  | n, x :: xs => (n, x) :: tagFrom (n + 1) xs

def insertRankedStable (x : Nat × String × ℚ) :
    List (Nat × String × ℚ) → List (Nat × String × ℚ)
  | [] => [x]
  | y :: ys =>
    if x.2.2 > y.2.2 ∨ (x.2.2 = y.2.2 ∧ x.1 < y.1) then x :: y :: ys
    else y :: insertRankedStable x ys

def sortRanked : List (Nat × String × ℚ) → List (Nat × String × ℚ)
  | [] => []
  | x :: xs => insertRankedStable x (sortRanked xs)

def routeClaimSpec (routes : List AgentRoute) (content : String) : List String :=
  let ct := detect_content_type content
  let cap := detect_required_capability content
  let scored := (tagFrom 0 routes).filterMap
    (fun p => (claimScore ct cap p.2).map (fun sc => (p.1, p.2.agent_name, sc)))
  let ranked := sortRanked scored
  if ranked.isEmpty then ["general-learning-agent"]
  else ranked.map (fun m => m.2.1)

/-! ## RoutingSpine.update_success_rate (lines 288-296) -/

/-- The exponential-smoothing step with alpha = 0.1. -/
def updateSuccessRate (success : Bool) (rate : ℚ) : ℚ :=
  (1 / 10) * (if success then 1 else 0) + (1 - 1 / 10) * rate

/-- Apply the smoothing step to the first route with the given name (the
Python loop breaks after the first match). -/
def update_success_rate (agent_name : String) (success : Bool) :
    List AgentRoute → List AgentRoute
  | [] => []
  | r :: rs =>
    if r.agent_name == agent_name then
      { r with success_rate := updateSuccessRate success r.success_rate } :: rs
    else r :: update_success_rate agent_name success rs

/-! ## Feedback store (ada_orchestrator.py FeedbackEntry / FeedbackLoop.record)

record builds one entry (timestamp from the wall clock) and appends it to the
in-memory list; the durable-file append is an I/O mirror of the same list. -/

structure FeedbackEntry where
  timestamp : Nat
  task_id : String
  content_type : String
  agents_used : List String
  success : Bool
  execution_time_ms : ℚ
  user_rating : Option Int := Option.none
  notes : Option String := Option.none

/-! ## ADACoordinator._execute_subtask (ada_coordinator.py lines 407-525)

The invocation of the Ion bridge is abstracted as invoke (ok with the
returned dict, or error with the exception's message); whether the resolved
name is a real Ion as isRealIon; the measured elapsed milliseconds as
elapsedMs.  The function returns the produced output together with the
feedback list and route list after the call — the source records feedback
only in the real-Ion non-exception branch, and never calls
update_success_rate. -/

/-- Python int() truncation toward zero. -/
def truncQ (q : ℚ) : Int := if q < 0 then -((-q).floor) else q.floor

def executeSubtask (now : Nat) (st : SubTask) (isRealIon : Bool) (elapsedMs : ℚ)
    (invoke : Except String (List (String × PyVal)))
    (feedback : List FeedbackEntry) (routes : List AgentRoute) :
    IonOutput × List FeedbackEntry × List AgentRoute :=
  if isRealIon then
    match invoke with
    | Except.ok res =>
      let success := pyTruthy (pyGet res "success" (PyVal.bool false))
      let entry : FeedbackEntry :=
        { timestamp := now
          task_id := "coord-" ++ st.ion_name
          content_type := st.ion_name
          agents_used := [st.ion_name]
          success := success
          execution_time_ms := elapsedMs }
      ({ ion_name := st.ion_name
         description := st.description
         success := success
         result := pyGet res "result" (PyVal.dict res)
         execution_time_ms := truncQ elapsedMs
         timestamp := now }, feedback ++ [entry], routes)
    | Except.error e =>
      ({ ion_name := st.ion_name
         description := st.description
         success := false
         result := PyVal.dict [("error", PyVal.str e)]
         execution_time_ms := truncQ elapsedMs
         timestamp := now
         error := some e }, feedback, routes)
  else
    ({ ion_name := st.ion_name
       description := st.description
       success := true
       result := PyVal.dict [("simulated", PyVal.bool true),
         ("message", PyVal.str ("Simulated " ++ st.ion_name ++ " execution"))]
       execution_time_ms := 50
       timestamp := now }, feedback, routes)

/-- The feedback entries a single subtask execution appends: one entry in the
real-Ion non-exception branch, none otherwise. -/
def subtaskFeedbackDelta (now : Nat) (st : SubTask) (isRealIon : Bool) (elapsedMs : ℚ)
    (invoke : Except String (List (String × PyVal))) : List FeedbackEntry :=
  match isRealIon, invoke with
  | true, Except.ok res =>
    [{ timestamp := now
       task_id := "coord-" ++ st.ion_name
       content_type := st.ion_name
       agents_used := [st.ion_name]
       success := pyTruthy (pyGet res "success" (PyVal.bool false))
       execution_time_ms := elapsedMs }]
  | _, _ => []

/-! ## Synthesized report (ada_output_synthesizer.py SynthesizedReport) -/

structure SynthesizedReport where
  title : String
  summary : String
  sections : List (List (String × PyVal))
  metadata : List (String × PyVal)
  raw_outputs : List IonOutput
  recommendations : List String
  generated_at : Nat

/-! ## OutputSynthesizer helpers and the codebase-analysis fusion
(ada_output_synthesizer.py lines 116-328 and 1444-1464) -/

/-- OutputSynthesizer._find_output: first output with the given ion name. -/
def findOutput (outputs : List IonOutput) (ion_name : String) : Option IonOutput :=
  outputs.find? (fun o => o.ion_name == ion_name)

/-- datetime.isoformat of the modelled clock tick. -/
def isoformat (now : Nat) : String := toString now

/-- OutputSynthesizer._build_metadata: the timestamp entry reads the wall
clock at synthesis time. -/
def build_metadata (now : Nat) (outputs : List IonOutput) : List (String × PyVal) :=
  [("total_ions", PyVal.int outputs.length),
   ("successful_ions", PyVal.int (outputs.filter (fun o => o.success)).length),
   ("failed_ions", PyVal.int (outputs.filter (fun o => !o.success)).length),
   ("total_execution_time_ms", PyVal.int (outputs.map (fun o => o.execution_time_ms)).sum),
   ("average_execution_time_ms", PyVal.rat
     (if outputs.isEmpty then 0
      else ((outputs.map (fun o => o.execution_time_ms)).sum : ℚ) / outputs.length)),
   ("timestamp", PyVal.str (isoformat now)),
   ("ions_used", PyVal.list (outputs.map (fun o => PyVal.str o.ion_name)))]

/-- Python str slicing s[:n]. -/
def strTake (s : String) (n : Nat) : String := ⟨s.data.take n⟩

/-- OutputSynthesizer._format_duplicate_section. -/
def formatDuplicateSection (result : PyVal) : String :=
  let base :=
    ["Total duplicates: " ++ pyStr (pyvGet result "duplicates_found" (PyVal.int 0)),
     "Lines affected: " ++ pyStr (pyvGet result "total_lines_duplicated" (PyVal.int 0)),
     "Space savings potential: " ++ pyStr (pyvGet result "space_savings" (PyVal.str "0 bytes"))]
  let lines :=
    if pyvHasKey result "groups" then
      base ++ ["", "Top duplicate groups:"] ++
        ((tagFrom 1 ((pyvGetList result "groups").take 5)).flatMap (fun ig =>
          let files := pyvGetList ig.2 "files"
          let shortNames := (files.take 3).map (fun f => strTake (pyStr f) 30)
          let file_list := String.intercalate ", " shortNames ++
            (if files.length > 3 then " (+" ++ toString (files.length - 3) ++ " more)" else "")
          ["  " ++ toString ig.1 ++ ". " ++ pyStr (pyvGet ig.2 "lines" (PyVal.int 0)) ++
             " lines across " ++ toString files.length ++ " files",
           "     Files: " ++ file_list]))
    else base
  String.intercalate "\n" lines

/-- OutputSynthesizer._format_dead_code_section. -/
def formatDeadCodeSection (result : PyVal) : String :=
  let base :=
    ["Unused functions: " ++ pyStr (pyvGet result "unused_functions" (PyVal.int 0)),
     "Unused imports: " ++ pyStr (pyvGet result "unused_imports" (PyVal.int 0)),
     "Unused variables: " ++ pyStr (pyvGet result "unused_variables" (PyVal.int 0)),
     "Removable lines: " ++ pyStr (pyvGet result "removable_lines" (PyVal.int 0))]
  let lines :=
    if pyvHasKey result "top_unused" then
      base ++ ["", "Top candidates for removal:"] ++
        (((pyvGetList result "top_unused").take 5).map (fun item =>
          "  - " ++ pyStr (pyvGet item "name" (PyVal.str "unknown")) ++
            " in " ++ pyStr (pyvGet item "file" (PyVal.str "unknown"))))
    else base
  String.intercalate "\n" lines

/-- OutputSynthesizer._format_organization_section. -/
def formatOrganizationSection (result : PyVal) : String :=
  let base :=
    ["Files analyzed: " ++ pyStr (pyvGet result "files_analyzed" (PyVal.int 0)),
     "Current structure score: " ++ pyStr (pyvGet result "organization_score" (PyVal.str "N/A")) ++ "/100"]
  let withMoves :=
    if pyvHasKey result "suggested_moves" then
      base ++ ["", "Suggested reorganizations:"] ++
        (((pyvGetList result "suggested_moves").take 5).map (fun mv =>
          "  - Move " ++ pyStr (pyvGet mv "file" (PyVal.str "?")) ++
            " to " ++ pyStr (pyvGet mv "suggested_location" (PyVal.str "?"))))
    else base
  let lines :=
    if pyvHasKey result "new_directories" then
      withMoves ++ ["", "Suggested new directories:"] ++
        (((pyvGetList result "new_directories").take 5).map (fun d => "  - " ++ pyStr d))
    else withMoves
  String.intercalate "\n" lines

/-- OutputSynthesizer._format_refactoring_section. -/
def formatRefactoringSection (result : PyVal) : String :=
  let actions :=
    if pyvHasKey result "priority_actions" then
      "Priority refactoring actions:" ::
        ((tagFrom 1 ((pyvGetList result "priority_actions").take 7)).flatMap (fun ia =>
          match ia.2 with
          | PyVal.dict kvs =>
            ("  " ++ toString ia.1 ++ ". [" ++ pyStr (pyGet kvs "priority" (PyVal.str "MED")) ++
               "] " ++ pyStr (pyGet kvs "description" (PyVal.str "No description"))) ::
              (if pyTruthy (pyGet kvs "estimated_effort" PyVal.none) then
                ["     Effort: " ++ pyStr (pyGet kvs "estimated_effort" PyVal.none)]
              else [])
          | other => ["  " ++ toString ia.1 ++ ". " ++ pyStr other]))
    else []
  let lines :=
    if pyvHasKey result "estimated_total_effort" then
      actions ++ ["", "Total estimated effort: " ++ pyStr (pyvGet result "estimated_total_effort" PyVal.none)]
    else actions
  String.intercalate "\n" lines

/-- Key of the sections sort: priority_order.get(s.get(priority, low), 3). -/
def sectionKey (s : List (String × PyVal)) : Nat :=
  match pyGet s "priority" (PyVal.str "low") with
  | PyVal.str "high" => 0
  | PyVal.str "medium" => 1
  | PyVal.str "low" => 2
  | _ => 3

/-- Stable ascending insertion on the section key (CPython stable sort). -/
def insertSectionStable (x : List (String × PyVal)) :
    List (List (String × PyVal)) → List (List (String × PyVal))
  | [] => [x]
  | y :: ys => if sectionKey x ≤ sectionKey y then x :: y :: ys else y :: insertSectionStable x ys

def sortSections : List (List (String × PyVal)) → List (List (String × PyVal))
  | [] => []
  | x :: xs => insertSectionStable x (sortSections xs)

/-- OutputSynthesizer._synthesize_codebase_analysis.  The wall clock enters
only through _build_metadata's timestamp entry and the dataclass default of
generated_at. -/
def synthCodebaseAnalysis (now : Nat) (outputs : List IonOutput) : SynthesizedReport :=
  let dup_out := findOutput outputs "duplicate-detector"
  let dead_out := findOutput outputs "dead-code-eliminator"
  let group_out := findOutput outputs "code-grouper"
  let refactor_out := findOutput outputs "refactor-planner"
  let step1 : List String × Int × List String :=
    match dup_out with
    | some o =>
      if o.success then
        let dup_count := pyvGetInt o.result "duplicates_found" 0
        ([toString dup_count ++ " duplicate code blocks"], dup_count,
         if dup_count > 5 then ["HIGH: Refactor duplicate code to shared utilities"] else [])
      else ([], 0, [])
    | Option.none => ([], 0, [])
  let step2 : List String × Int × List String :=
    match dead_out with
    | some o =>
      if o.success then
        let dead_funcs := pyvGetInt o.result "unused_functions" 0
        let dead_imports := pyvGetInt o.result "unused_imports" 0
        (step1.1 ++ [toString dead_funcs ++ " unused functions, " ++ toString dead_imports ++ " unused imports"],
         step1.2.1 + dead_funcs + dead_imports,
         step1.2.2 ++ (if dead_funcs > 0 then ["MEDIUM: Remove dead code to reduce maintenance burden"] else []))
      else step1
    | Option.none => step1
  let step3 : List String × Int × List String :=
    match group_out with
    | some o =>
      if o.success then
        let misplaced := pyvGetInt o.result "misplaced_files" 0
        if misplaced > 0 then
          (step2.1 ++ [toString misplaced ++ " files could be better organized"],
           step2.2.1, step2.2.2 ++ ["LOW: Consider reorganizing file structure"])
        else step2
      else step2
    | Option.none => step2
  let step4 : List String × Int × List String :=
    match refactor_out with
    | some o =>
      if o.success then
        let priority_count := (pyvGetList o.result "priority_actions").length
        if priority_count > 0 then
          (step3.1 ++ [toString priority_count ++ " refactoring actions recommended"],
           step3.2.1, step3.2.2)
        else step3
      else step3
    | Option.none => step3
  let summary := "Codebase analysis complete. Found " ++ toString step4.2.1 ++ " issues: " ++
    String.intercalate ", " step4.1 ++ "."
  let secDup : List (List (String × PyVal)) :=
    match dup_out with
    | some o =>
      if o.success then
        [[("title", PyVal.str "Duplicate Code"), ("icon", PyVal.str "[DUP]"),
          ("content", PyVal.str (formatDuplicateSection o.result)),
          ("priority", PyVal.str (if pyvGetInt o.result "duplicates_found" 0 > 5 then "high" else "medium")),
          ("ion", PyVal.str "duplicate-detector")]]
      else []
    | Option.none => []
  let secDead : List (List (String × PyVal)) :=
    match dead_out with
    | some o =>
      if o.success then
        [[("title", PyVal.str "Dead Code"), ("icon", PyVal.str "[DEL]"),
          ("content", PyVal.str (formatDeadCodeSection o.result)),
          ("priority", PyVal.str "medium"), ("ion", PyVal.str "dead-code-eliminator")]]
      else []
    | Option.none => []
  let secGroup : List (List (String × PyVal)) :=
    match group_out with
    | some o =>
      if o.success then
        [[("title", PyVal.str "Code Organization"), ("icon", PyVal.str "[ORG]"),
          ("content", PyVal.str (formatOrganizationSection o.result)),
          ("priority", PyVal.str "low"), ("ion", PyVal.str "code-grouper")]]
      else []
    | Option.none => []
  let secRef : List (List (String × PyVal)) :=
    match refactor_out with
    | some o =>
      if o.success then
        [[("title", PyVal.str "Refactoring Plan"), ("icon", PyVal.str "[REF]"),
          ("content", PyVal.str (formatRefactoringSection o.result)),
          ("priority", PyVal.str "high"), ("ion", PyVal.str "refactor-planner")]]
      else []
    | Option.none => []
  { title := "LearnQwest Codebase Analysis"
    summary := summary
    sections := sortSections (secDup ++ secDead ++ secGroup ++ secRef)
    metadata := build_metadata now outputs
    raw_outputs := outputs
    recommendations := step4.2.2
    generated_at := now }

/-- Erase the clock-derived data of a report: the metadata timestamp entry
and generated_at. -/
def scrubReport (r : SynthesizedReport) : SynthesizedReport :=
  { r with
    metadata := r.metadata.map (fun kv => if kv.1 = "timestamp" then (kv.1, PyVal.none) else kv)
    generated_at := 0 }

/-! ## Task plan and the top level of ADACoordinator.execute
(ada_coordinator.py lines 172-331)

The try block spans decomposition, wave planning, the wave loop and
synthesis; the except clause turns any exception into a fixed error report.
The fallible in-Python stages are abstracted as Except-valued arguments; the
wave partition itself is the embedded create_execution_plan. -/

structure TaskPlan where
  original_request : String
  pattern : TaskPattern
  subtasks : List SubTask
  estimated_time_seconds : Int
  requires_synthesis : Bool
  parallel_groups : List (List String)

/-- The report built in the except branch of ADACoordinator.execute. -/
def errorReport (task e : String) (durationSeconds : ℚ) (now : Nat) : SynthesizedReport :=
  { title := "Execution Error"
    summary := "Task execution failed: " ++ e
    sections := [[("title", PyVal.str "Error Details"), ("icon", PyVal.str "[ERR]"),
      ("content", PyVal.str e), ("priority", PyVal.str "high")]]
    metadata := [("error", PyVal.str e), ("task", PyVal.str task),
      ("duration_seconds", PyVal.rat durationSeconds)]
    raw_outputs := []
    recommendations := ["Review the error and retry"]
    generated_at := now }

def executeTop (task : String) (durationSeconds : ℚ) (now : Nat)
    (decomposeR : Except String TaskPlan)
    (runWavesR : List (List SubTask) → Except String (List IonOutput))
    (synthesizeR : String → List IonOutput → Except String SynthesizedReport) :
    SynthesizedReport :=
  match decomposeR with
  | Except.error e => errorReport task e durationSeconds now
  | Except.ok plan =>
    match runWavesR (create_execution_plan plan.subtasks) with
    | Except.error e => errorReport task e durationSeconds now
    | Except.ok outs =>
      match synthesizeR (patternValue plan.pattern) outs with
      | Except.error e => errorReport task e durationSeconds now
      | Except.ok report => report

/-! ## Concrete inputs used by individual claims -/

/-- A three-task dependency chain shaped like the decomposer's output: ids
differ from ion names, dependencies are task ids. -/
def chainA : SubTask := ⟨"a1", "ionA", "first", 1, [], true, 5⟩

def chainB : SubTask := ⟨"b1", "ionB", "second", 1, ["a1"], true, 5⟩

def chainC : SubTask := ⟨"c1", "ionC", "third", 1, ["b1"], true, 5⟩

/-- A two-task dependency cycle. -/
def cycX : SubTask := ⟨"x1", "ionX", "x", 1, ["y1"], true, 5⟩

def cycY : SubTask := ⟨"y1", "ionY", "y", 1, ["x1"], true, 5⟩

/-- A wave with one fast and one slow subtask. -/
def c2taskA : SubTask := ⟨"fast_001", "fast-ion", "finishes in time", 1, [], true, 5⟩

def c2taskB : SubTask := ⟨"slow_001", "slow-ion", "exceeds the budget", 2, [], true, 5⟩

/-- The real output the fast subtask produced within the budget. -/
def c2okA : IonOutput :=
  { ion_name := "fast-ion"
    description := "finishes in time"
    success := true
    result := PyVal.dict [("value", PyVal.int 42)]
    execution_time_ms := 10
    timestamp := 3 }

/-- The real output of the slow subtask. -/
def c2failB : IonOutput :=
  { ion_name := "slow-ion"
    description := "exceeds the budget"
    success := false
    result := PyVal.dict []
    execution_time_ms := 95
    timestamp := 3
    error := some "slow" }

/-- Subtasks and routes for the feedback-forwarding claim. -/
def c4simTask : SubTask := ⟨"quiz-generator_001", "quiz-generator", "simulated ion", 1, [], true, 3⟩

def c4errTask : SubTask := ⟨"duplicate-detector_001", "duplicate-detector", "raises", 1, [], true, 5⟩

def c4routes : List AgentRoute :=
  [{ agent_name := "duplicate-detector-ion"
     handles_content := [ContentType.CODE_FILE]
     capabilities := [AgentCapability.ANALYZE]
     priority := 5
     success_rate := 1 }]

/-! ## Scheduler lemmas shared by several claims -/

/-- Removing the kept elements of a nonempty filter strictly shrinks a list. -/
theorem length_filter_not_lt {α : Type} {p : α → Bool} {l : List α}
    (h : l.filter p ≠ []) : (l.filter (fun t => !p t)).length < l.length := by
  rw [List.length_filter_lt_length_iff_exists]
  obtain ⟨x, hx⟩ := List.exists_mem_of_ne_nil _ h
  rcases List.mem_filter.mp hx with ⟨hmem, hpx⟩
  exact ⟨x, hmem, by simp [hpx]⟩

/-- The waves produced by the scheduler loop are a permutation of the tasks
it was given, for any sufficient fuel. -/
theorem createPlanAux_flatten_perm :
    ∀ (fuel : Nat) (completed : List String) (remaining : List SubTask),
      remaining.length ≤ fuel →
      (createPlanAux fuel completed remaining).flatten.Perm remaining := by
  intro fuel
  induction fuel with
  | zero =>
    intro completed remaining h
    have hnil : remaining = [] := List.eq_nil_of_length_eq_zero (Nat.le_zero.mp h)
    subst hnil
    simp [createPlanAux]
  | succ fuel ih =>
    intro completed remaining h
    by_cases hr : remaining.isEmpty
    · have hnil : remaining = [] := List.isEmpty_iff.mp hr
      subst hnil
      simp [createPlanAux]
    · by_cases hready : (remaining.filter (taskReady completed)).isEmpty
      · simp [createPlanAux, hr, hready]
      · have hne : remaining.filter (taskReady completed) ≠ [] := by
          intro hc
          exact hready (by simp [hc])
        have hlt := length_filter_not_lt hne
        have hrec := ih (completed ++ (remaining.filter (taskReady completed)).map (fun t => t.ion_name))
          (remaining.filter (fun t => !taskReady completed t)) (by omega)
        have hflt := List.filter_append_perm (taskReady completed) remaining
        simp only [createPlanAux, hr, hready, Bool.false_eq_true, if_false, List.flatten_cons]
        exact ((hrec.append_left _).trans hflt)

theorem create_execution_plan_flatten_perm (subtasks : List SubTask) :
    (create_execution_plan subtasks).flatten.Perm subtasks :=
  createPlanAux_flatten_perm subtasks.length [] subtasks (Nat.le_refl _)

/-- Every task id in the groups of the decomposer loop comes from the
remaining set it started with. -/
theorem calcGroupsAux_flatten_subset (subtasks : List SubTask) :
    ∀ (fuel : Nat) (completed remaining : List String),
      ∀ tid ∈ (calcGroupsAux subtasks fuel completed remaining).flatten, tid ∈ remaining := by
  intro fuel
  induction fuel with
  | zero => intro c r tid h; simp [calcGroupsAux] at h
  | succ fuel ih =>
    intro c r tid h
    by_cases hr : r.isEmpty
    · simp [calcGroupsAux, hr] at h
    · by_cases hg : (r.filter (groupReady subtasks c)).isEmpty
      · simp [calcGroupsAux, hr, hg] at h
      · simp only [calcGroupsAux, hr, hg, Bool.false_eq_true, if_false, List.flatten_cons,
          List.mem_append] at h
        rcases h with h | h
        · exact (List.mem_filter.mp h).1
        · exact (List.mem_filter.mp (ih _ _ tid h)).1

/-! ## Routing lemmas for the refinement of route against the claim text -/

theorem claimScore_eq (ct : ContentType) (cap : AgentCapability) (r : AgentRoute) :
    claimScore ct cap r = routeScore ct cap r := by
  unfold claimScore routeScore
  by_cases hct : ct ∈ r.handles_content <;> by_cases hcap : cap ∈ r.capabilities <;>
    simp [hct, hcap, mul_comm]

theorem tagFrom_filterMap_map {α β : Type} (f : α → Option β) :
    ∀ (n : Nat) (l : List α),
      (((tagFrom n l).filterMap (fun p => (f p.2).map (fun v => (p.1, v)))).map
        (fun x => x.2)) = l.filterMap f := by
  intro n l
  induction l generalizing n with
  | nil => simp [tagFrom]
  | cons x xs ih =>
    simp only [tagFrom, List.filterMap_cons]
    cases hfx : f x with
    | none => simpa [hfx] using ih (n + 1)
    | some b => simpa [hfx] using ih (n + 1)

theorem tagFrom_filterMap_lb {α β : Type} (f : α → Option β) :
    ∀ (n : Nat) (l : List α) (y : Nat × β),
      y ∈ (tagFrom n l).filterMap (fun p => (f p.2).map (fun v => (p.1, v))) → n ≤ y.1 := by
  intro n l
  induction l generalizing n with
  | nil => intro y h; simp [tagFrom] at h
  | cons x xs ih =>
    intro y h
    simp only [tagFrom, List.filterMap_cons] at h
    cases hfx : f x with
    | none =>
      rw [hfx] at h
      exact Nat.le_of_succ_le (ih (n + 1) y h)
    | some b =>
      rw [hfx] at h
      simp only [Option.map_some', List.mem_cons] at h
      rcases h with h | h
      · subst h; exact Nat.le_refl n
      · exact Nat.le_of_succ_le (ih (n + 1) y h)

theorem tagFrom_filterMap_pairwise {α β : Type} (f : α → Option β) :
    ∀ (n : Nat) (l : List α),
      List.Pairwise (fun a b => a.1 < b.1)
        ((tagFrom n l).filterMap (fun p => (f p.2).map (fun v => (p.1, v)))) := by
  intro n l
  induction l generalizing n with
  | nil => simp [tagFrom]
  | cons x xs ih =>
    simp only [tagFrom, List.filterMap_cons]
    cases hfx : f x with
    | none => exact ih (n + 1)
    | some b =>
      simp only [Option.map_some']
      refine List.Pairwise.cons ?_ (ih (n + 1))
      intro y hy
      exact Nat.lt_of_succ_le (tagFrom_filterMap_lb f (n + 1) xs y hy)

theorem insertRankedStable_perm (x : Nat × String × ℚ) (l : List (Nat × String × ℚ)) :
    (insertRankedStable x l).Perm (x :: l) := by
  induction l with
  | nil => simp [insertRankedStable]
  | cons y ys ih =>
    by_cases hc : x.2.2 > y.2.2 ∨ (x.2.2 = y.2.2 ∧ x.1 < y.1)
    · simp [insertRankedStable, hc]
    · simp only [insertRankedStable, hc, if_false]
      exact (ih.cons y).trans (List.Perm.swap x y ys)

theorem sortRanked_perm (l : List (Nat × String × ℚ)) : (sortRanked l).Perm l := by
  induction l with
  | nil => simp [sortRanked]
  | cons x xs ih =>
    exact (insertRankedStable_perm x (sortRanked xs)).trans (ih.cons x)

theorem insertDescStable_perm (x : String × ℚ) (l : List (String × ℚ)) :
    (insertDescStable x l).Perm (x :: l) := by
  induction l with
  | nil => simp [insertDescStable]
  | cons y ys ih =>
    by_cases hc : x.2 ≥ y.2
    · simp [insertDescStable, hc]
    · simp only [insertDescStable, hc, if_false]
      exact (ih.cons y).trans (List.Perm.swap x y ys)

theorem sortDescStable_perm (l : List (String × ℚ)) : (sortDescStable l).Perm l := by
  induction l with
  | nil => simp [sortDescStable]
  | cons x xs ih =>
    exact (insertDescStable_perm x (sortDescStable xs)).trans (ih.cons x)

theorem untag_insertRankedStable (x : Nat × String × ℚ) :
    ∀ (l : List (Nat × String × ℚ)), (∀ y ∈ l, x.1 < y.1) →
      (insertRankedStable x l).map (fun z => z.2) =
        insertDescStable x.2 (l.map (fun z => z.2)) := by
  intro l
  induction l with
  | nil => intro _; simp [insertRankedStable, insertDescStable]
  | cons y ys ih =>
    intro h
    have hxy : x.1 < y.1 := h y (List.mem_cons_self y ys)
    by_cases hd : x.2.2 ≥ y.2.2
    · have hc : x.2.2 > y.2.2 ∨ (x.2.2 = y.2.2 ∧ x.1 < y.1) := by
        rcases lt_or_eq_of_le hd with hlt | heq
        · exact Or.inl hlt
        · exact Or.inr ⟨heq.symm, hxy⟩
      simp [insertRankedStable, insertDescStable, hc, hd]
    · have hc : ¬(x.2.2 > y.2.2 ∨ (x.2.2 = y.2.2 ∧ x.1 < y.1)) := by
        intro hcon
        rcases hcon with hgt | ⟨heq, _⟩
        · exact hd (le_of_lt hgt)
        · exact hd (le_of_eq heq.symm)

      simp only [insertRankedStable, insertDescStable, hc, hd, if_false, List.map_cons]
      rw [ih (fun z hz => h z (List.mem_cons_of_mem y hz))]

theorem untag_sortRanked :
    ∀ (l : List (Nat × String × ℚ)), List.Pairwise (fun a b => a.1 < b.1) l →
      (sortRanked l).map (fun z => z.2) = sortDescStable (l.map (fun z => z.2)) := by
  intro l
  induction l with
  | nil => intro _; simp [sortRanked, sortDescStable]
  | cons x xs ih =>
    intro h
    rcases List.pairwise_cons.mp h with ⟨hx, hxs⟩
    have hall : ∀ y ∈ sortRanked xs, x.1 < y.1 := fun y hy =>
      hx y ((sortRanked_perm xs).mem_iff.mp hy)
    simp only [sortRanked, sortDescStable, List.map_cons]
    rw [untag_insertRankedStable x (sortRanked xs) hall, ih hxs]

theorem route_eq_claimSpec (routes : List AgentRoute) (content : String) :
    route routes content = routeClaimSpec routes content := by
  simp only [route, routeClaimSpec]
  set ct := detect_content_type content with hct
  set cap := detect_required_capability content with hcap
  set f : AgentRoute → Option (String × ℚ) :=
    fun r => (routeScore ct cap r).map (fun sc => (r.agent_name, sc)) with hf
  have hfun : (fun p : Nat × AgentRoute =>
      (claimScore ct cap p.2).map (fun sc => (p.1, p.2.agent_name, sc))) =
      (fun p => (f p.2).map (fun v => (p.1, v))) := by
    funext p
    rw [hf]
    simp only [claimScore_eq, Option.map_map]
    rfl
  rw [hfun]
  have huntag := tagFrom_filterMap_map f 0 routes
  have hpair := tagFrom_filterMap_pairwise f 0 routes
  have hmain := untag_sortRanked _ hpair
  rw [huntag] at hmain
  have hmatches : routes.filterMap f = routeMatches routes ct cap := rfl
  rw [hmatches] at hmain
  by_cases hM : routeMatches routes ct cap = []
  · have hscored : (tagFrom 0 routes).filterMap (fun p => (f p.2).map (fun v => (p.1, v))) = [] := by
      have h2 := huntag
      rw [hmatches, hM] at h2
      exact List.map_eq_nil_iff.mp h2
    rw [hscored, hM]
    simp [sortRanked, sortDescStable, routeMatches]
  · have hlen1 : (sortDescStable (routeMatches routes ct cap)).length
        = (routeMatches routes ct cap).length :=
      (sortDescStable_perm _).length_eq
    have hagents : ((sortDescStable (routeMatches routes ct cap)).map (fun m => m.1)).isEmpty = false := by
      rw [List.isEmpty_eq_false_iff_exists_mem]
      have hne : (sortDescStable (routeMatches routes ct cap)) ≠ [] := by
        intro hc
        rw [hc] at hlen1
        exact hM (List.eq_nil_of_length_eq_zero hlen1.symm)
      obtain ⟨x, hx⟩ := List.exists_mem_of_ne_nil _ hne
      exact ⟨x.1, List.mem_map_of_mem _ hx⟩
    have hscoredne : (tagFrom 0 routes).filterMap (fun p => (f p.2).map (fun v => (p.1, v))) ≠ [] := by
      intro hc
      rw [hmatches] at huntag
      rw [hc] at huntag
      exact hM huntag.symm
    have hranked : ((sortRanked ((tagFrom 0 routes).filterMap (fun p => (f p.2).map (fun v => (p.1, v))))).isEmpty) = false := by
      have hlen2 := (sortRanked_perm ((tagFrom 0 routes).filterMap (fun p => (f p.2).map (fun v => (p.1, v))))).length_eq
      rw [List.isEmpty_eq_false_iff_exists_mem]
      have hne2 : sortRanked ((tagFrom 0 routes).filterMap (fun p => (f p.2).map (fun v => (p.1, v)))) ≠ [] := by
        intro hc
        rw [hc] at hlen2
        exact hscoredne (List.eq_nil_of_length_eq_zero hlen2.symm)
      obtain ⟨x, hx⟩ := List.exists_mem_of_ne_nil _ hne2
      exact ⟨x, hx⟩
    rw [hagents, hranked]
    simp only [Bool.false_eq_true, if_false]
    rw [← hmain, List.map_map]
    rfl

theorem route_ne_nil (routes : List AgentRoute) (content : String) :
    route routes content ≠ [] := by
  simp only [route]
  by_cases hE : ((sortDescStable (routeMatches routes (detect_content_type content)
      (detect_required_capability content))).map (fun m => m.1)).isEmpty
  · simp [hE]
  · simp only [Bool.not_eq_true] at hE
    simp only [hE, Bool.false_eq_true, if_false]
    intro hc
    rw [hc] at hE
    simp at hE

/-! ## Smoothing lemmas (RoutingSpine.update_success_rate) -/

theorem updateSuccessRate_mem_unit {r : ℚ} (s : Bool) (h0 : 0 ≤ r) (h1 : r ≤ 1) :
    0 ≤ updateSuccessRate s r ∧ updateSuccessRate s r ≤ 1 := by
  unfold updateSuccessRate
  cases s <;> constructor <;> simp <;> linarith

theorem foldl_updateSuccessRate_mem_unit :
    ∀ (updates : List Bool) (r : ℚ), 0 ≤ r → r ≤ 1 →
      0 ≤ updates.foldl (fun acc s => updateSuccessRate s acc) r ∧
      updates.foldl (fun acc s => updateSuccessRate s acc) r ≤ 1 := by
  intro updates
  induction updates with
  | nil => intro r h0 h1; exact ⟨h0, h1⟩
  | cons s rest ih =>
    intro r h0 h1
    have hstep := updateSuccessRate_mem_unit s h0 h1
    simpa [List.foldl_cons] using ih (updateSuccessRate s r) hstep.1 hstep.2

/-! ## Claim theorems -/

/-- C1: the claim states that on every acyclic subtask list whose dependency
identities refer into the list, create_execution_plan puts every dependency
in a strictly earlier wave.  The code records completion by ion_name while
dependencies are task ids, so on the three-task chain below (ids shaped as
the decomposer generates them) no dependency is ever recognised as
satisfied: the scheduler emits [[chainA], [chainB, chainC]] through its
degraded branch, and chainC's dependency chainB sits in the same wave as
chainC rather than a strictly smaller one.  This theorem evaluates the code
at that failing input. -/
theorem C1_dependency_identity_mismatch :
    create_execution_plan [chainA, chainB, chainC] = [[chainA], [chainB, chainC]]
    ∧ chainB.task_id = "b1" ∧ chainC.depends_on = ["b1"]
    ∧ waveIndexOf (create_execution_plan [chainA, chainB, chainC]) "b1"
        = waveIndexOf (create_execution_plan [chainA, chainB, chainC]) "c1" := by
  refine ⟨by decide, rfl, rfl, by decide⟩

/-- C2 counterexample: the claim states that when a wave's budget elapses
only the still-outstanding subtasks are recorded as timeout failures while
completed siblings keep their real success and results.  On a wave whose
body produced a real success for the fast subtask, the timeout branch of
ADACoordinator.execute discards every produced output and records a
synthetic timeout failure for every subtask of the wave, including the
completed one. -/
theorem C2_counterexample :
    executeWaves (fun _ _ _ => [c2okA, c2failB]) (fun _ => true) 9 [[c2taskA, c2taskB]]
      = [timeoutOutput 9 c2taskA, timeoutOutput 9 c2taskB]
    ∧ c2okA.success = true
    ∧ (executeWaves (fun _ _ _ => [c2okA, c2failB]) (fun _ => true) 9
        [[c2taskA, c2taskB]]).all (fun o => !o.success) = true
    ∧ (timeoutOutput 9 c2taskA).error = some "Execution timeout"
    ∧ c2okA ∉ executeWaves (fun _ _ _ => [c2okA, c2failB]) (fun _ => true) 9
        [[c2taskA, c2taskB]] := by
  refine ⟨rfl, rfl, rfl, rfl, ?_⟩
  intro h
  have hall : (executeWaves (fun _ _ _ => [c2okA, c2failB]) (fun _ => true) 9
      [[c2taskA, c2taskB]]).all (fun o => !o.success) = true := rfl
  have hfalse := List.all_eq_true.mp hall c2okA h
  simp [c2okA] at hfalse

/-- C2 amended: when wave n's budget elapses, every subtask of that wave —
including any that completed within the budget — is recorded as a failed
output with result error Timeout and error text Execution timeout, the
wave body's outputs are discarded, the stored previous-wave results are
left unchanged, and execution proceeds with the remaining waves. -/
theorem C2_wave_timeout_replaces_whole_wave
    (runWave : Nat → List SubTask → List (String × PyVal) → List IonOutput)
    (timedOut : Nat → Bool) (now n : Nat) (prev : List (String × PyVal))
    (wave : List SubTask) (rest : List (List SubTask)) (h : timedOut n = true) :
    executeWavesAux runWave timedOut now n prev (wave :: rest)
      = wave.map (timeoutOutput now) ++ executeWavesAux runWave timedOut now (n + 1) prev rest
    ∧ ∀ st ∈ wave, ∃ o ∈ executeWavesAux runWave timedOut now n prev (wave :: rest),
        o.ion_name = st.ion_name ∧ o.description = st.description ∧ o.success = false ∧
        o.result = PyVal.dict [("error", PyVal.str "Timeout")] ∧
        o.error = some "Execution timeout" := by
  have heq : executeWavesAux runWave timedOut now n prev (wave :: rest)
      = wave.map (timeoutOutput now) ++ executeWavesAux runWave timedOut now (n + 1) prev rest := by
    simp [executeWavesAux, h]
  refine ⟨heq, ?_⟩
  intro st hst
  refine ⟨timeoutOutput now st, ?_, rfl, rfl, rfl, rfl, rfl⟩
  rw [heq]
  exact List.mem_append_left _ (List.mem_map_of_mem _ hst)

/-- C2 witness: the amended theorem applied to a concrete timed-out wave. -/
theorem C2_witness :
    executeWavesAux (fun _ _ _ => []) (fun _ => true) 0 1 [] [[c2taskA]]
      = [c2taskA].map (timeoutOutput 0) ++ executeWavesAux (fun _ _ _ => []) (fun _ => true) 0 2 [] []
    ∧ ∀ st ∈ [c2taskA], ∃ o ∈ executeWavesAux (fun _ _ _ => []) (fun _ => true) 0 1 [] [[c2taskA]],
        o.ion_name = st.ion_name ∧ o.description = st.description ∧ o.success = false ∧
        o.result = PyVal.dict [("error", PyVal.str "Timeout")] ∧
        o.error = some "Execution timeout" :=
  C2_wave_timeout_replaces_whole_wave (fun _ _ _ => []) (fun _ => true) 0 1 [] [c2taskA] [] rfl

/-- C3 counterexample: the claim states that on a cyclic input both
wave-partition implementations force the unschedulable subtasks into one
final wave rather than dropping them.  On a two-task cycle the decomposer's
_calculate_parallel_groups breaks out of its loop and returns no groups at
all — both subtasks are silently dropped — while the coordinator's
create_execution_plan forces them into one final wave. -/
theorem C3_counterexample :
    calculate_parallel_groups [cycX, cycY] = []
    ∧ create_execution_plan [cycX, cycY] = [[cycX, cycY]] := by
  refine ⟨by decide, by decide⟩

/-- C3 amended: on every subtask list (cyclic or dangling dependencies
included) both implementations terminate; create_execution_plan never drops
a subtask — its waves are a permutation of the input, the unresolvable ones
forced into the final wave — while _calculate_parallel_groups returns groups
drawn only from the input's task ids and may drop the unschedulable
remainder (the counterexample shows it dropping everything); the degraded
condition is reported only as a console warning in the coordinator and not
at all in the decomposer, so neither function's return value flags it. -/
theorem C3_degraded_mode (subtasks : List SubTask) :
    (create_execution_plan subtasks).flatten.Perm subtasks
    ∧ ((calculate_parallel_groups subtasks).flatten.all
        (fun tid => (subtasks.map (fun st => st.task_id)).contains tid)) = true := by
  refine ⟨create_execution_plan_flatten_perm subtasks, ?_⟩
  rw [List.all_eq_true]
  intro tid htid
  have hmem := calcGroupsAux_flatten_subset subtasks _ _ _ tid htid
  have : tid ∈ subtasks.map (fun st => st.task_id) := List.mem_dedup.mp hmem
  simpa using this

/-- C4 counterexample: the claim states every outcome (success, failure,
simulated, exception, timeout) is unconditionally forwarded to the Feedback
Store and to the router's score update.  A simulated execution produces a
successful outcome yet appends no feedback entry and leaves every route
untouched; an invocation exception produces a failed outcome with no
feedback entry; even a recorded real outcome leaves the routes — and hence
every success rate — unchanged, because _execute_subtask never calls
update_success_rate. -/
theorem C4_counterexample :
    (executeSubtask 3 c4simTask false 50 (Except.ok []) [] c4routes).1.success = true
    ∧ (executeSubtask 3 c4simTask false 50 (Except.ok []) [] c4routes).2.1 = []
    ∧ (executeSubtask 3 c4simTask false 50 (Except.ok []) [] c4routes).2.2 = c4routes
    ∧ (executeSubtask 3 c4errTask true 12 (Except.error "boom") [] c4routes).1.success = false
    ∧ (executeSubtask 3 c4errTask true 12 (Except.error "boom") [] c4routes).2.1 = []
    ∧ (executeSubtask 3 c4errTask true 12
        (Except.ok [("success", PyVal.bool true)]) [] c4routes).2.2 = c4routes := by
  exact ⟨rfl, rfl, rfl, rfl, rfl, rfl⟩

/-- C4 amended: a subtask execution never updates the router's routes (no
score update happens on this path), and it appends exactly one feedback
entry when the resolved name is a real Ion and the invocation returns
(successfully or not), and none for simulated executions or invocation
exceptions. -/
theorem C4_feedback_and_router_effects (now : Nat) (st : SubTask) (isRealIon : Bool)
    (elapsedMs : ℚ) (invoke : Except String (List (String × PyVal)))
    (feedback : List FeedbackEntry) (routes : List AgentRoute) :
    (executeSubtask now st isRealIon elapsedMs invoke feedback routes).2.2 = routes
    ∧ (executeSubtask now st isRealIon elapsedMs invoke feedback routes).2.1
        = feedback ++ subtaskFeedbackDelta now st isRealIon elapsedMs invoke
    ∧ (∀ (elaps2 : ℚ) (inv2 : Except String (List (String × PyVal))),
        subtaskFeedbackDelta now st false elaps2 inv2 = [])
    ∧ (∀ (e : String) (elaps2 : ℚ),
        subtaskFeedbackDelta now st true elaps2 (Except.error e) = []) := by
  refine ⟨?_, ?_, fun _ _ => rfl, fun _ _ => rfl⟩
  · cases isRealIon <;> cases invoke <;> simp [executeSubtask]
  · cases isRealIon <;> cases invoke <;> simp [executeSubtask, subtaskFeedbackDelta]

/-- C5 counterexample: the claim states the text below classifies to the
codebase-analysis pattern; the classifier's first (more specific) branch
fires on the word duplicates and yields the duplicate-detection pattern
instead. -/
theorem C5_counterexample :
    identifyPattern "Analyze the codebase for duplicates and dead code"
      ≠ TaskPattern.CODEBASE_ANALYSIS := by
  decide

/-- C5 amended: the text classifies to the duplicate-detection pattern, its
builder produces exactly one subtask (the duplicate-detector task, no
dependencies), and the wave scheduler partitions it into exactly one wave
of size one. -/
theorem C5_duplicate_detection_scenario :
    identifyPattern "Analyze the codebase for duplicates and dead code"
      = TaskPattern.DUPLICATE_DETECTION
    ∧ (decomposeDuplicateDetection "Analyze the codebase for duplicates and dead code" 0).1
      = [{ task_id := "duplicate-detector_001"
           ion_name := "duplicate-detector"
           description := "Find duplicate code patterns"
           priority := 1
           depends_on := []
           can_parallelize := true
           estimated_time_seconds := 5 }]
    ∧ create_execution_plan
        (decomposeDuplicateDetection "Analyze the codebase for duplicates and dead code" 0).1
      = [[{ task_id := "duplicate-detector_001"
            ion_name := "duplicate-detector"
            description := "Find duplicate code patterns"
            priority := 1
            depends_on := []
            can_parallelize := true
            estimated_time_seconds := 5 }]] := by
  refine ⟨by decide, by decide, by decide⟩

/-- C6: on every input text and route list, route returns exactly the
ranking described by the claim — matching routes scored priority times
success rate, doubled on a dual match, excluded on no match, sorted by
descending score with ties in registration order, a single fallback name
when nothing matches — and the returned list is never empty (and, being a
total function, route never throws). -/
theorem C6_route_ranking (routes : List AgentRoute) (content : String) :
    route routes content = routeClaimSpec routes content
    ∧ route routes content ≠ [] :=
  ⟨route_eq_claimSpec routes content, route_ne_nil routes content⟩

/-- C7: the score update is exponential smoothing with alpha one tenth; from
any score in the unit interval a success update is non-decreasing with the
distance to one shrinking by the factor nine tenths, a failure update is
non-increasing with the distance to zero shrinking by the same factor, and
any finite sequence of updates keeps the score in the unit interval. -/
theorem C7_smoothing (r : ℚ) (h0 : 0 ≤ r) (h1 : r ≤ 1) :
    (r ≤ updateSuccessRate true r ∧ updateSuccessRate true r ≤ 1 ∧
      1 - updateSuccessRate true r = (9 / 10) * (1 - r))
    ∧ (updateSuccessRate false r ≤ r ∧ 0 ≤ updateSuccessRate false r ∧
      updateSuccessRate false r = (9 / 10) * r)
    ∧ ∀ updates : List Bool,
        0 ≤ updates.foldl (fun acc s => updateSuccessRate s acc) r ∧
        updates.foldl (fun acc s => updateSuccessRate s acc) r ≤ 1 := by
  refine ⟨⟨?_, ?_, ?_⟩, ⟨?_, ?_, ?_⟩, fun updates => foldl_updateSuccessRate_mem_unit updates r h0 h1⟩
  · unfold updateSuccessRate; simp; linarith
  · unfold updateSuccessRate; simp; linarith
  · unfold updateSuccessRate; simp; ring_nf
  · unfold updateSuccessRate; simp; linarith
  · unfold updateSuccessRate; simp; linarith
  · unfold updateSuccessRate; norm_num

/-- C7 witness: the smoothing theorem applied at score zero. -/
theorem C7_witness :
    ((0 : ℚ) ≤ updateSuccessRate true 0 ∧ updateSuccessRate true 0 ≤ 1 ∧
      1 - updateSuccessRate true 0 = (9 / 10) * (1 - 0))
    ∧ (updateSuccessRate false 0 ≤ 0 ∧ (0 : ℚ) ≤ updateSuccessRate false 0 ∧
      updateSuccessRate false 0 = (9 / 10) * 0)
    ∧ ∀ updates : List Bool,
        0 ≤ updates.foldl (fun acc s => updateSuccessRate s acc) (0 : ℚ) ∧
        updates.foldl (fun acc s => updateSuccessRate s acc) (0 : ℚ) ≤ 1 := by
  have h := C7_smoothing 0 (le_refl 0) zero_le_one
  exact h

/-- C8: whichever pipeline stage fails — decomposition, the wave loop, or
synthesis — the top level of ADACoordinator.execute returns the fixed error
report built in its except branch, whose title, summary, error section,
metadata and recommendations are as constructed there; executeTop is a total
function into reports, so no exception reaches the caller. -/
theorem C8_error_containment (task : String) (dur : ℚ) (now : Nat)
    (decomposeR : Except String TaskPlan)
    (runWavesR : List (List SubTask) → Except String (List IonOutput))
    (synthesizeR : String → List IonOutput → Except String SynthesizedReport) :
    (∀ e, decomposeR = Except.error e →
      executeTop task dur now decomposeR runWavesR synthesizeR = errorReport task e dur now)
    ∧ (∀ plan e, decomposeR = Except.ok plan →
        runWavesR (create_execution_plan plan.subtasks) = Except.error e →
        executeTop task dur now decomposeR runWavesR synthesizeR = errorReport task e dur now)
    ∧ (∀ plan outs e, decomposeR = Except.ok plan →
        runWavesR (create_execution_plan plan.subtasks) = Except.ok outs →
        synthesizeR (patternValue plan.pattern) outs = Except.error e →
        executeTop task dur now decomposeR runWavesR synthesizeR = errorReport task e dur now)
    ∧ (∀ e, (errorReport task e dur now).title = "Execution Error"
        ∧ (errorReport task e dur now).summary = "Task execution failed: " ++ e
        ∧ (errorReport task e dur now).sections =
            [[("title", PyVal.str "Error Details"), ("icon", PyVal.str "[ERR]"),
              ("content", PyVal.str e), ("priority", PyVal.str "high")]]
        ∧ pyLookup (errorReport task e dur now).metadata "error" = some (PyVal.str e)
        ∧ pyLookup (errorReport task e dur now).metadata "task" = some (PyVal.str task)
        ∧ (errorReport task e dur now).recommendations = ["Review the error and retry"]) := by
  refine ⟨?_, ?_, ?_, ?_⟩
  · intro e he; rw [he]; rfl
  · intro plan e hp hw
    subst hp
    simp [executeTop, hw]
  · intro plan outs e hp hw hs
    subst hp
    simp [executeTop, hw, hs]
  · intro e
    exact ⟨rfl, rfl, rfl, rfl, rfl, rfl⟩

/-- C8 witness: the containment theorem applied to a failing decomposition. -/
theorem C8_witness :
    executeTop "t" 0 0 (Except.error "boom") (fun _ => Except.ok [])
      (fun _ _ => Except.error "x") = errorReport "t" "boom" 0 0 :=
  (C8_error_containment "t" 0 0 (Except.error "boom") (fun _ => Except.ok [])
    (fun _ _ => Except.error "x")).1 "boom" rfl

/-- C9 counterexample: the claim states two synthesize calls on the same
inputs yield byte-identical reports with no ambient input (including
timestamps) making them differ.  The codebase-analysis fusion stamps the
wall clock into the metadata timestamp entry (via _build_metadata) and into
generated_at, so two calls at different clock ticks differ. -/
theorem C9_counterexample :
    synthCodebaseAnalysis 0 [] ≠ synthCodebaseAnalysis 1 []
    ∧ pyLookup (synthCodebaseAnalysis 0 []).metadata "timestamp" = some (PyVal.str "0")
    ∧ pyLookup (synthCodebaseAnalysis 1 []).metadata "timestamp" = some (PyVal.str "1") := by
  refine ⟨?_, rfl, rfl⟩
  intro h
  have h2 : (0 : Nat) = 1 := congrArg SynthesizedReport.generated_at h
  exact absurd h2 (by decide)

/-- C9 amended: two synthesize calls on the same outputs yield reports equal
in every field once the clock-derived data (the metadata timestamp entry
and generated_at) is erased; all remaining fields are a pure function of the
outputs. -/
theorem C9_deterministic_up_to_clock (t1 t2 : Nat) (outputs : List IonOutput) :
    scrubReport (synthCodebaseAnalysis t1 outputs)
      = scrubReport (synthCodebaseAnalysis t2 outputs) := by
  rfl

/-- C10: for every input list of subtasks, regardless of dependency
structure (cycles and dangling references included), the concatenation of
the waves returned by create_execution_plan is a permutation of the input
list: every subtask appears in exactly one wave and none is dropped. -/
theorem C10_partition_permutation (subtasks : List SubTask) :
    (create_execution_plan subtasks).flatten.Perm subtasks :=
  create_execution_plan_flatten_perm subtasks

end ADA
